import Mathlib

/-!
Verification of the `j1ssica-shengdanshu` repository (interactive particle
Christmas tree plus a thin generative-text wish service).

The development shallowly embeds the relevant source files:
  * `services/geminiService.ts` — the `generateLuxuryWish` call, its request
    construction, its fallback strings and its catch-all error handling;
  * `components/UI.tsx` — the `handleGenerateWish` submit handler and the
    wish-panel state machine;
  * `components/Tree.tsx` — the procedural foliage/ornament generators, the
    per-frame blend driver (`THREE.MathUtils.lerp`), and the per-frame render
    callbacks.

JavaScript floating-point numbers are modelled as real numbers; `Math.random()`
values are modelled as an abstract stream `u : ℕ → ℝ` consumed in source order,
with the hypothesis that every drawn value lies in `[0, 1]`.  A value that a
rejected promise would carry is modelled with `Except Unit`.
-/

/- ## Embedding of `services/geminiService.ts` and `components/UI.tsx` -/

/-- Request record sent to `ai.models.generateContent`
(`services/geminiService.ts`, lines 13–21).  The `temperature` is an exact
rational since the source literal `0.8` is exactly representable there. -/
structure GenRequest where
  model : String
  contents : String
  systemInstruction : String
  temperature : ℚ
  maxOutputTokens : ℕ
deriving DecidableEq

/-- Outcome of the external text-generation call: either a response whose
`text` field is possibly absent (`response.text?`), or a raised exception. -/
inductive ApiResult where
  | ok (text : Option String)
  | err
deriving DecidableEq

/-- The constant `LUXURY_SYSTEM_INSTRUCTION` from `constants.ts`, including the
template literal's leading/trailing newlines and trailing spaces. -/
def LUXURY_SYSTEM_INSTRUCTION : String :=
  "\nYou are the \"Arix Signature\" AI Concierge. \nYour tone is ultra-luxury, sophisticated, poetic, and warm but elevated. \nThink \"High-End Jewelry Commercial\" meets \"Magical Realism\".\nYou should generate short (max 30 words), elegant holiday wishes based on the user\x27s input.\nAvoid generic phrases. Use words like \"Opulence,\" \"Radiance,\" \"Timeless,\" \"Glow,\" \"Serenity.\"\n"

/-- The request built by `generateLuxuryWish` when a key is present
(`geminiService.ts` lines 13–21).  The template `${userInput || 'Elegance'}`
substitutes the default exactly when `userInput` is the empty string (the only
falsy string). -/
def wishRequest (userInput : String) : GenRequest :=
  { model := "gemini-2.5-flash"
    contents := "Create a luxurious, magical holiday wish for someone who loves: " ++
      (if userInput = "" then "Elegance" else userInput)
    systemInstruction := LUXURY_SYSTEM_INSTRUCTION
    temperature := 0.8
    maxOutputTokens := 60 }

/-- JavaScript `String.prototype.trim`: strip leading and trailing whitespace.
Defined structurally over the character list so that it evaluates by kernel
reduction. -/
def jsTrim (s : String) : String :=
  ⟨(((s.data.dropWhile Char.isWhitespace).reverse.dropWhile Char.isWhitespace).reverse)⟩

/-- The success-path result extraction `response.text?.trim() || "May your
holidays be filled with golden moments."` (`geminiService.ts` line 23): an
absent `text`, and a `text` trimming to the empty string, both fall back. -/
def wishText (t : Option String) : String :=
  match t with
  | none => "May your holidays be filled with golden moments."
  | some s => if jsTrim s = "" then "May your holidays be filled with golden moments." else jsTrim s

/-- Embedding of `generateLuxuryWish` (`geminiService.ts` lines 7–28).  The
first component is the returned value, `Except.error` standing for an
exception propagating to the caller; the second component is the list of
outbound requests issued, in order.  The `try`/`catch` is modelled by matching
on the body's outcome: a raised exception (`ApiResult.err`) is caught and
replaced by the fixed fallback sentence. -/
def generateLuxuryWish (apiKey userInput : String) (call : GenRequest → ApiResult) :
    Except Unit String × List GenRequest :=
  if apiKey = "" then
    (Except.ok "Experience the magic of the holidays. (API Key missing)", [])
  else
    let req := wishRequest userInput
    let attempt : Except Unit String :=
      match call req with
      | ApiResult.err => Except.error ()
      | ApiResult.ok t => Except.ok (wishText t)
    (match attempt with
      | Except.error _ => Except.ok "May elegance guide your way into the New Year."
      | Except.ok s => Except.ok s,
     [req])

/-- Wish-panel UI state (`types.ts` / `UI.tsx` lines 13–17). -/
structure WishState where
  isLoading : Bool
  text : Option String
  error : Option String
deriving DecidableEq

/-- Observable outcome of one invocation of the submit handler: whether
`onIgnite` was called, the outbound requests issued, and the final state. -/
structure SubmitResult where
  ignited : Bool
  requests : List GenRequest
  state : WishState
deriving DecidableEq

/-- Embedding of `handleGenerateWish` (`UI.tsx` lines 19–33).  `onIgnite` fires
first whenever the tree is not formed; an empty-after-trim prompt then returns
early leaving the state untouched; otherwise the wish call runs and its
`catch` branch would set the error sentence if the call could ever reject. -/
def handleGenerateWish (apiKey : String) (isFormed : Bool) (prompt : String)
    (call : GenRequest → ApiResult) (st : WishState) : SubmitResult :=
  let ignited := !isFormed
  if jsTrim prompt = "" then
    { ignited := ignited, requests := [], state := st }
  else
    let r := generateLuxuryWish apiKey prompt call
    match r.1 with
    | Except.ok s =>
        { ignited := ignited, requests := r.2,
          state := { isLoading := false, text := some s, error := none } }
    | Except.error _ =>
        { ignited := ignited, requests := r.2,
          state := { isLoading := false, text := none,
                     error := some "The stars are misaligned. Try again." } }

/-- States of the wish panel reachable in a session (`UI.tsx`): the initial
state, the transient loading state set before the call resolves
(line 25), the state after a completed submit, and the reset state
(lines 35–39). -/
inductive ReachableWish : WishState → Prop
  | init : ReachableWish { isLoading := false, text := none, error := none }
  | loading (st : WishState) : ReachableWish st →
      ReachableWish { st with isLoading := true, error := none }
  | submit (apiKey : String) (isFormed : Bool) (prompt : String)
      (call : GenRequest → ApiResult) (st : WishState) : ReachableWish st →
      ReachableWish (handleGenerateWish apiKey isFormed prompt call st).state
  | reset (st : WishState) : ReachableWish st →
      ReachableWish { isLoading := false, text := none, error := none }

/- ## Embedding of `components/Tree.tsx` — procedural geometry and blending -/

noncomputable section

/-- Constant `FOLIAGE_COUNT` (`Tree.tsx` line 102). -/
def FOLIAGE_COUNT : ℕ := 6000

/-- Constant `TREE_HEIGHT` (`Tree.tsx` line 103). -/
def TREE_HEIGHT : ℝ := 14

/-- Constant `TREE_RADIUS` (`Tree.tsx` line 104). -/
def TREE_RADIUS : ℝ := 5.5

/-- Euclidean distance of a point from the origin. -/
def dist3 (p : ℝ × ℝ × ℝ) : ℝ :=
  Real.sqrt (p.1 ^ 2 + p.2.1 ^ 2 + p.2.2 ^ 2)

/-- Distance of a point from the vertical (y) axis. -/
def radialDist (p : ℝ × ℝ × ℝ) : ℝ :=
  Real.sqrt (p.1 ^ 2 + p.2.2 ^ 2)

/-- Height (y) component of a point. -/
def heightOf (p : ℝ × ℝ × ℝ) : ℝ := p.2.1

/-- Formed (tree-cone) position of foliage particle `i` out of `count`
(`Tree.tsx` lines 122–147); `r1` is the `Math.random()` draw feeding
`radiusJitter`.  The clamp `if (r < 0) r = 0` is `max … 0`. -/
def foliageTreePos (count i : ℕ) (r1 : ℝ) : ℝ × ℝ × ℝ :=
  let t : ℝ := (i : ℝ) / (count : ℝ)
  let y := t * TREE_HEIGHT - TREE_HEIGHT / 2
  let heightFactor := (TREE_HEIGHT / 2 - y) / TREE_HEIGHT
  let idealRadius := heightFactor * TREE_RADIUS
  let angle := t * Real.pi * 120
  let radiusJitter := r1 * 0.3 - 0.15
  let r := max (idealRadius + radiusJitter) 0
  (Real.cos angle * r, y, Real.sin angle * r)

/-- Scattered (galaxy-shell) position of a foliage particle
(`Tree.tsx` lines 149–157); `r2 r3 r4` are the `Math.random()` draws feeding
`sr`, `sTheta` and `sPhi`. -/
def foliageScatterPos (r2 r3 r4 : ℝ) : ℝ × ℝ × ℝ :=
  let sr := 25 + r2 * 20
  let sTheta := r3 * Real.pi * 2
  let sPhi := Real.arccos (2 * r4 - 1)
  (sr * Real.sin sPhi * Real.cos sTheta,
   sr * Real.sin sPhi * Real.sin sTheta,
   sr * Real.cos sPhi)

/-- The four attribute arrays produced by `generateFoliageAttributes`
(`Tree.tsx` lines 116–165), with positions grouped as triples. -/
structure FoliageAttrs where
  scatterPos : List (ℝ × ℝ × ℝ)
  treePos : List (ℝ × ℝ × ℝ)
  randoms : List ℝ
  sizes : List ℝ

/-- Embedding of `generateFoliageAttributes` (`Tree.tsx` lines 116–165).  The
loop body consumes six `Math.random()` draws per index, in source order:
`radiusJitter`, `sr`, `sTheta`, `sPhi`, `randoms[i]`, `sizes[i]`; iteration `i`
reads `u (6*i + k)` for the `k`-th draw. -/
def generateFoliageAttributes (u : ℕ → ℝ) : FoliageAttrs :=
  { scatterPos := (List.range FOLIAGE_COUNT).map
      (fun i => foliageScatterPos (u (6 * i + 1)) (u (6 * i + 2)) (u (6 * i + 3)))
    treePos := (List.range FOLIAGE_COUNT).map
      (fun i => foliageTreePos FOLIAGE_COUNT i (u (6 * i)))
    randoms := (List.range FOLIAGE_COUNT).map (fun i => u (6 * i + 4))
    sizes := (List.range FOLIAGE_COUNT).map (fun i => u (6 * i + 5) * 0.6 + 0.4) }

/-- Ornament shape tag (`types.ts`, `Tree.tsx` line 112). -/
inductive OrnamentType where
  | SPHERE
  | CUBE
  | DIAMOND
deriving DecidableEq

/-- Shape selection of `generateOrnaments` (`Tree.tsx` lines 183–185). -/
def ornamentShape (i : ℕ) : OrnamentType :=
  if i % 6 = 0 then OrnamentType.CUBE
  else if i % 4 = 0 then OrnamentType.DIAMOND
  else OrnamentType.SPHERE

/-- Scale selection of `generateOrnaments` (`Tree.tsx` line 198). -/
def ornamentScale (ty : OrnamentType) : ℝ :=
  match ty with
  | OrnamentType.CUBE => 0.7
  | OrnamentType.SPHERE => 0.5
  | OrnamentType.DIAMOND => 0.4

/-- The `OrnamentData` record (`Tree.tsx` lines 106–114). -/
structure OrnamentData where
  id : ℕ
  scatterPos : ℝ × ℝ × ℝ
  treePos : ℝ × ℝ × ℝ
  rotationSpeed : ℝ × ℝ × ℝ
  scale : ℝ
  type : OrnamentType
  phase : ℝ

/-- Formed (on-tree) position of ornament `i` out of `count`
(`Tree.tsx` lines 170–180); `rAngle` is the `Math.random()` draw jittering the
spiral angle.  The radius uses `TREE_RADIUS + 0.2` ("slightly outside
foliage") with no radial jitter. -/
def ornamentTreePos (count i : ℕ) (rAngle : ℝ) : ℝ × ℝ × ℝ :=
  let t : ℝ := (i : ℝ) / (count : ℝ)
  let y := t * TREE_HEIGHT - TREE_HEIGHT / 2
  let heightFactor := (TREE_HEIGHT / 2 - y) / TREE_HEIGHT
  let idealRadius := heightFactor * (TREE_RADIUS + 0.2)
  let angle := t * Real.pi * 25 + rAngle * 0.5
  (Real.cos angle * idealRadius, y, Real.sin angle * idealRadius)

/-- Scattered position of an ornament (`Tree.tsx` lines 188–191): each
coordinate is `(Math.random() - 0.5) * spread` with `spread = 30`, i.e. a
cube of half-side 15 centred at the origin. -/
def ornamentScatterPos (r1 r2 r3 : ℝ) : ℝ × ℝ × ℝ :=
  ((r1 - 0.5) * 30, (r2 - 0.5) * 30, (r3 - 0.5) * 30)

/-- One ornament as pushed by the loop body of `generateOrnaments`
(`Tree.tsx` lines 169–202).  The body consumes eight `Math.random()` draws in
source order: angle jitter, `sx`, `sy`, `sz`, three rotation speeds, phase. -/
def mkOrnament (count i : ℕ) (u : ℕ → ℝ) : OrnamentData :=
  { id := i
    scatterPos := ornamentScatterPos (u (8 * i + 1)) (u (8 * i + 2)) (u (8 * i + 3))
    treePos := ornamentTreePos count i (u (8 * i))
    rotationSpeed := (u (8 * i + 4) * 0.05, u (8 * i + 5) * 0.05, u (8 * i + 6) * 0.05)
    scale := ornamentScale (ornamentShape i)
    type := ornamentShape i
    phase := u (8 * i + 7) * Real.pi * 2 }

/-- Embedding of `generateOrnaments` (`Tree.tsx` lines 167–204). -/
def generateOrnaments (count : ℕ) (u : ℕ → ℝ) : List OrnamentData :=
  (List.range count).map (fun i => mkOrnament count i u)

/- ## Blend driver and per-frame render callbacks -/

/-- `THREE.MathUtils.lerp(x, y, t) = (1 - t) * x + t * y`; note the
interpolant `t` is NOT clamped by the library. -/
def lerp (x y t : ℝ) : ℝ := (1 - t) * x + t * y

/-- One tick of the blend driver (`Tree.tsx` lines 330–331):
`progress ← lerp(progress, isFormed ? 1 : 0, delta * 1.2)`. -/
def blendStep (isFormed : Bool) (p delta : ℝ) : ℝ :=
  lerp p (if isFormed then 1 else 0) (delta * 1.2)

/-- The blend scalar sequence starting at 0 with target 1 (`isFormed = true`),
iterated at a fixed tick size `d`. -/
def blendSeq (d : ℝ) : ℕ → ℝ
  | 0 => 0
  | n + 1 => blendStep true (blendSeq d n) d

/-- `THREE.Vector3.lerpVectors(a, b, t)` componentwise (writes a fresh target
vector; reads `a` and `b` only). -/
def lerpVec (a b : ℝ × ℝ × ℝ) (t : ℝ) : ℝ × ℝ × ℝ :=
  (a.1 + (b.1 - a.1) * t, a.2.1 + (b.2.1 - a.2.1) * t, a.2.2 + (b.2.2 - a.2.2) * t)

/-- Instance transform written into the instanced mesh for one ornament. -/
structure RenderTransform where
  position : ℝ × ℝ × ℝ
  scale : ℝ
  rotation : ℝ × ℝ × ℝ

/-- The per-ornament computation of `OrnamentLayer`'s `useFrame` callback
(`Tree.tsx` lines 254–274): lerp scatter→tree by `progress`, add the float
offsets, scale by `progress * 0.3 + 0.7`, spin by `time * rotationSpeed`. -/
def ornamentTransform (time progress : ℝ) (item : OrnamentData) : RenderTransform :=
  let base := lerpVec item.scatterPos item.treePos progress
  let floatAmp := (1 - progress) * 1.0 + 0.05
  { position := (base.1 + Real.cos (time * 0.5 + item.phase) * floatAmp * 0.5,
                 base.2.1 + Real.sin (time + item.phase) * floatAmp,
                 base.2.2)
    scale := item.scale * (progress * 0.3 + 0.7)
    rotation := (time * item.rotationSpeed.1,
                 time * item.rotationSpeed.2.1,
                 time * item.rotationSpeed.2.2) }

/-- Mutable scene state touched by the three `useFrame` callbacks in
`Tree.tsx`: the generated data, the foliage shader uniforms, the instance
matrices, the blend scalar and the group rotation. -/
structure SceneState where
  foliage : FoliageAttrs
  ornaments : List OrnamentData
  uTime : ℝ
  uProgress : ℝ
  instanceMatrices : List RenderTransform
  progress : ℝ
  rotationY : ℝ

/-- One frame of the scene: the `Tree` `useFrame` (lines 327–339) advances the
blend scalar and group rotation, the `FoliageLayer` `useFrame` (lines 212–217)
writes the two uniforms, and the `OrnamentLayer` `useFrame` (lines 250–277)
rewrites every instance matrix from the immutable ornament data. -/
def sceneFrame (isFormed : Bool) (time delta : ℝ) (s : SceneState) : SceneState :=
  let p := blendStep isFormed s.progress delta
  { foliage := s.foliage
    ornaments := s.ornaments
    uTime := time
    uProgress := p
    instanceMatrices := s.ornaments.map (ornamentTransform time p)
    progress := p
    rotationY := s.rotationY + delta * (if isFormed then 0.05 else 0.01) }

end

/- ## Helper lemmas -/

/-- The wish call never produces an `Except.error`: both the missing-key path
and the `try`/`catch` wrap every outcome into a returned string. -/
lemma generateLuxuryWish_isOk (apiKey userInput : String) (call : GenRequest → ApiResult) :
    ∃ s, (generateLuxuryWish apiKey userInput call).1 = Except.ok s := by
  unfold generateLuxuryWish
  by_cases hk : apiKey = ""
  · exact ⟨"Experience the magic of the holidays. (API Key missing)", by simp [hk]⟩
  · cases hc : call (wishRequest userInput) with
    | ok t => exact ⟨wishText t, by simp [hk, hc]⟩
    | err => exact ⟨"May elegance guide your way into the New Year.", by simp [hk, hc]⟩

/- ## Claim theorems -/

/-- C5: with an empty API key, `generateLuxuryWish` returns the literal string
"Experience the magic of the holidays. (API Key missing)" for every user
input, and issues no outbound request. -/
theorem c5_missing_key_fallback (userInput : String) (call : GenRequest → ApiResult) :
    generateLuxuryWish "" userInput call =
      (Except.ok "Experience the magic of the holidays. (API Key missing)", []) := by
  simp [generateLuxuryWish]

/-- C6: when the external call raises (models any exception class), and a key
is present, `generateLuxuryWish` returns the literal string
"May elegance guide your way into the New Year." for every user input. -/
theorem c6_exception_fallback (apiKey userInput : String) (call : GenRequest → ApiResult)
    (hk : apiKey ≠ "") (hc : call (wishRequest userInput) = ApiResult.err) :
    (generateLuxuryWish apiKey userInput call).1 =
      Except.ok "May elegance guide your way into the New Year." := by
  simp [generateLuxuryWish, hk, hc]

/-- Witness for C6 at a concrete key and input, with a call that always
raises. -/
theorem c6_exception_fallback_witness :
    (generateLuxuryWish "k" "Snow" (fun _ => ApiResult.err)).1 =
      Except.ok "May elegance guide your way into the New Year." :=
  c6_exception_fallback "k" "Snow" (fun _ => ApiResult.err) (by decide) rfl

/-- C8: when a key is present, exactly one outbound request is issued, whose
contents are the template followed by the user input (default "Elegance" when
the input is empty), with the fixed system instruction, temperature 0.8 and a
60-token output cap. -/
theorem c8_single_templated_request (apiKey userInput : String)
    (call : GenRequest → ApiResult) (hk : apiKey ≠ "") :
    (generateLuxuryWish apiKey userInput call).2 =
      [{ model := "gemini-2.5-flash"
         contents := "Create a luxurious, magical holiday wish for someone who loves: " ++
           (if userInput = "" then "Elegance" else userInput)
         systemInstruction := LUXURY_SYSTEM_INSTRUCTION
         temperature := 0.8
         maxOutputTokens := 60 }] := by
  simp [generateLuxuryWish, hk, wishRequest]

/-- Witness for C8 at a concrete key and input. -/
theorem c8_single_templated_request_witness :
    (generateLuxuryWish "k" "Snow" (fun _ => ApiResult.err)).2 =
      [{ model := "gemini-2.5-flash"
         contents := "Create a luxurious, magical holiday wish for someone who loves: " ++
           (if ("Snow" : String) = "" then "Elegance" else "Snow")
         systemInstruction := LUXURY_SYSTEM_INSTRUCTION
         temperature := 0.8
         maxOutputTokens := 60 }] :=
  c8_single_templated_request "k" "Snow" (fun _ => ApiResult.err) (by decide)

/-- C7: submitting with an empty-after-trim prompt while the tree is not
formed calls `onIgnite`, issues no outbound request, and leaves the wish state
unchanged. -/
theorem c7_empty_prompt_ignites_only (apiKey prompt : String)
    (call : GenRequest → ApiResult) (st : WishState) (hp : jsTrim prompt = "") :
    handleGenerateWish apiKey false prompt call st =
      { ignited := true, requests := [], state := st } := by
  simp [handleGenerateWish, hp]

/-- Witness for C7 at a whitespace-only prompt and the initial state. -/
theorem c7_empty_prompt_ignites_only_witness :
    handleGenerateWish "k" false "  " (fun _ => ApiResult.err)
        { isLoading := false, text := none, error := none } =
      { ignited := true, requests := [],
        state := { isLoading := false, text := none, error := none } } :=
  c7_empty_prompt_ignites_only "k" "  " (fun _ => ApiResult.err)
    { isLoading := false, text := none, error := none } (by decide)

/-- C10: `generateLuxuryWish` is total — it returns a string on every path and
never propagates an exception — and consequently the submit handler's catch
branch is unreachable: every reachable wish-panel state has `error = none`. -/
theorem c10_wish_total_error_unreachable :
    (∀ (apiKey userInput : String) (call : GenRequest → ApiResult),
        ∃ s, (generateLuxuryWish apiKey userInput call).1 = Except.ok s) ∧
    (∀ st : WishState, ReachableWish st → st.error = none) := by
  refine ⟨generateLuxuryWish_isOk, ?_⟩
  intro st h
  induction h with
  | init => rfl
  | loading st _ _ => rfl
  | submit apiKey isFormed prompt call st _ ih =>
      unfold handleGenerateWish
      by_cases hp : jsTrim prompt = ""
      · simpa [hp] using ih
      · obtain ⟨s, hs⟩ := generateLuxuryWish_isOk apiKey prompt call
        simp [hp, hs]
  | reset st _ _ => rfl

/-- Witness for C10: the invariant applied to the initial state. -/
theorem c10_wish_total_error_unreachable_witness :
    ({ isLoading := false, text := none, error := none } : WishState).error = none ∧
    ∃ s, (generateLuxuryWish "" "Snow" (fun _ => ApiResult.err)).1 = Except.ok s :=
  ⟨c10_wish_total_error_unreachable.2 _ ReachableWish.init,
   c10_wish_total_error_unreachable.1 "" "Snow" (fun _ => ApiResult.err)⟩

/-- Closed form of the blend iteration: after `n` ticks of size `d` toward
target 1, the scalar equals `1 - (1 - d * 1.2) ^ n`. -/
lemma blendSeq_closed (d : ℝ) (n : ℕ) :
    blendSeq d n = 1 - (1 - d * 1.2) ^ n := by
  induction n with
  | zero => simp [blendSeq]
  | succ n ih =>
      rw [blendSeq, ih]
      simp only [blendStep, lerp, if_true]
      ring

/-- C2 (counterexample to the claim as stated): `THREE.MathUtils.lerp` does
not clamp its interpolant, so a frame delta of 1 second moves the scalar from
0 past the target 1, to 1.2 — the update leaves `[0, 1]` and overshoots. -/
theorem c2_blend_step_overshoot_cex :
    blendStep true 0 1 = 1.2 ∧ ¬ blendStep true 0 1 ≤ 1 := by
  norm_num [blendStep, lerp]

/-- C2 (amended): for any frame delta with `delta * 1.2 ≤ 1`, a blend scalar
in `[0, 1]` stays in `[0, 1]` and never moves past the current target (it is
non-decreasing toward target 1 and non-increasing toward target 0). -/
theorem c2_blend_step_bounded_amended (isFormed : Bool) (p d : ℝ)
    (hp0 : 0 ≤ p) (hp1 : p ≤ 1) (hd0 : 0 ≤ d) (hd1 : d * 1.2 ≤ 1) :
    (0 ≤ blendStep isFormed p d ∧ blendStep isFormed p d ≤ 1) ∧
    (isFormed = true → p ≤ blendStep isFormed p d) ∧
    (isFormed = false → blendStep isFormed p d ≤ p) := by
  have ht0 : 0 ≤ d * 1.2 := mul_nonneg hd0 (by norm_num)
  have hnn : 0 ≤ (1 - d * 1.2) * p := mul_nonneg (by linarith) hp0
  cases isFormed with
  | false =>
      have hb : blendStep false p d = (1 - d * 1.2) * p := by
        norm_num [blendStep, lerp]
      have h1 : 0 ≤ blendStep false p d := by rw [hb]; exact hnn
      have h2 : blendStep false p d ≤ 1 := by
        rw [hb]; nlinarith [mul_nonneg ht0 (sub_nonneg.mpr hp1)]
      have h3 : blendStep false p d ≤ p := by
        rw [hb]; nlinarith [mul_nonneg ht0 hp0]
      exact ⟨⟨h1, h2⟩, ⟨(fun h => nomatch h), fun _ => h3⟩⟩
  | true =>
      have hb : blendStep true p d = (1 - d * 1.2) * p + d * 1.2 := by
        norm_num [blendStep, lerp]
      have h1 : 0 ≤ blendStep true p d := by rw [hb]; linarith
      have h2 : blendStep true p d ≤ 1 := by
        rw [hb]; nlinarith [mul_nonneg ht0 (sub_nonneg.mpr hp1)]
      have h3 : p ≤ blendStep true p d := by
        rw [hb]; nlinarith [mul_nonneg ht0 (sub_nonneg.mpr hp1)]
      exact ⟨⟨h1, h2⟩, ⟨fun _ => h3, (fun h => nomatch h)⟩⟩

/-- Witness for the amended C2 at `p = 0`, `delta = 1/2`, target formed. -/
theorem c2_blend_step_bounded_amended_witness :
    ((0 ≤ blendStep true 0 (1/2) ∧ blendStep true 0 (1/2) ≤ 1) ∧
     (true = true → (0:ℝ) ≤ blendStep true 0 (1/2)) ∧
     (true = false → blendStep true 0 (1/2) ≤ 0)) ∧
    (0:ℝ) ≤ 1/2 ∧ (1/2 : ℝ) * 1.2 ≤ 1 :=
  ⟨c2_blend_step_bounded_amended true 0 (1/2) le_rfl zero_le_one (by norm_num) (by norm_num),
   by norm_num, by norm_num⟩

/-- C3: starting the blend scalar at 0 with target 1 and ticking at the fixed
size 1/60 s (a 60 fps frame), the sequence is monotonically non-decreasing,
never exceeds 1, and is within 0.001 of 1 after 350 ticks. -/
theorem c3_blend_seq_monotone_converges :
    (∀ n : ℕ, blendSeq (1/60) n ≤ blendSeq (1/60) (n + 1)) ∧
    (∀ n : ℕ, blendSeq (1/60) n ≤ 1) ∧
    1 - 1/1000 ≤ blendSeq (1/60) 350 := by
  have hclosed : ∀ n : ℕ, blendSeq (1/60) n = 1 - (49/50 : ℝ) ^ n := by
    intro n
    rw [blendSeq_closed]
    norm_num
  refine ⟨?_, ?_, ?_⟩
  · intro n
    rw [hclosed, hclosed]
    have h1 : (49/50 : ℝ) ^ (n + 1) ≤ (49/50 : ℝ) ^ n := by
      rw [pow_succ]
      nlinarith [pow_nonneg (by norm_num : (0:ℝ) ≤ 49/50) n]
    linarith
  · intro n
    rw [hclosed]
    nlinarith [pow_nonneg (by norm_num : (0:ℝ) ≤ 49/50) n]
  · rw [hclosed]
    have h2 : (49/50 : ℝ) ^ 350 ≤ 1/1000 := by norm_num
    linarith

/-- Norm of a spherical-coordinate point: the three squared components of
`(s sinφ cosθ, s sinφ sinθ, s cosφ)` sum to `s²`. -/
lemma sphere_norm (s φ θ : ℝ) (hs : 0 ≤ s) :
    Real.sqrt ((s * Real.sin φ * Real.cos θ) ^ 2 + (s * Real.sin φ * Real.sin θ) ^ 2 +
      (s * Real.cos φ) ^ 2) = s := by
  have h1 := Real.sin_sq_add_cos_sq θ
  have h2 := Real.sin_sq_add_cos_sq φ
  have hsum : (s * Real.sin φ * Real.cos θ) ^ 2 + (s * Real.sin φ * Real.sin θ) ^ 2 +
      (s * Real.cos φ) ^ 2 = s ^ 2 := by
    linear_combination (s ^ 2 * Real.sin φ ^ 2) * h1 + s ^ 2 * h2
  rw [hsum, Real.sqrt_sq hs]

/-- Distance from the vertical axis of a point placed at angle `a` and radius
`r` equals `r` when `r` is non-negative. -/
lemma radial_cos_sin (a r : ℝ) (hr : 0 ≤ r) :
    Real.sqrt ((Real.cos a * r) ^ 2 + (Real.sin a * r) ^ 2) = r := by
  have h := Real.sin_sq_add_cos_sq a
  have hsum : (Real.cos a * r) ^ 2 + (Real.sin a * r) ^ 2 = r ^ 2 := by
    linear_combination r ^ 2 * h
  rw [hsum, Real.sqrt_sq hr]

/-- Bounded-radius form of `radial_cos_sin`. -/
lemma radial_cos_sin_le (a r c : ℝ) (hr : 0 ≤ r) (hrc : r ≤ c) :
    Real.sqrt ((Real.cos a * r) ^ 2 + (Real.sin a * r) ^ 2) ≤ c := by
  rw [radial_cos_sin a r hr]
  exact hrc

/-- A foliage scattered position lies at distance exactly `25 + r2 * 20` from
the origin: the spherical sampling preserves the sampled shell radius `sr`. -/
lemma foliage_scatter_dist3 (r2 r3 r4 : ℝ) (h0 : 0 ≤ r2) :
    dist3 (foliageScatterPos r2 r3 r4) = 25 + r2 * 20 := by
  simp only [dist3, foliageScatterPos]
  exact sphere_norm _ _ _ (by linarith)

/-- Height and radial bounds for one foliage tree position: the height lies in
`[-7, 7]` and the radial distance is at most `TREE_RADIUS` plus the `0.15`
jitter bound. -/
lemma foliageTreePos_bounds (count i : ℕ) (r1 : ℝ) (hi : i ≤ count)
    (_h0 : 0 ≤ r1) (h1 : r1 ≤ 1) :
    -7 ≤ heightOf (foliageTreePos count i r1) ∧
    heightOf (foliageTreePos count i r1) ≤ 7 ∧
    radialDist (foliageTreePos count i r1) ≤ 5.5 + 0.15 := by
  have ht0 : (0:ℝ) ≤ (i : ℝ) / (count : ℝ) := by positivity
  have ht1 : (i : ℝ) / (count : ℝ) ≤ 1 :=
    div_le_one_of_le₀ (by exact_mod_cast hi) (Nat.cast_nonneg _)
  simp only [foliageTreePos, heightOf, radialDist, TREE_HEIGHT, TREE_RADIUS]
  exact ⟨by linarith, by linarith,
    radial_cos_sin_le _ _ _ (le_max_right _ _) (max_le (by linarith) (by norm_num))⟩

/-- Height and radial bounds for one ornament tree position: the height lies
in `[-7, 7]` and the radial distance is at most `TREE_RADIUS + 0.2` (the
ornament ring sits slightly outside the foliage cone). -/
lemma ornamentTreePos_bounds (count i : ℕ) (r : ℝ) (hi : i ≤ count) :
    -7 ≤ heightOf (ornamentTreePos count i r) ∧
    heightOf (ornamentTreePos count i r) ≤ 7 ∧
    radialDist (ornamentTreePos count i r) ≤ 5.5 + 0.2 := by
  have ht0 : (0:ℝ) ≤ (i : ℝ) / (count : ℝ) := by positivity
  have ht1 : (i : ℝ) / (count : ℝ) ≤ 1 :=
    div_le_one_of_le₀ (by exact_mod_cast hi) (Nat.cast_nonneg _)
  simp only [ornamentTreePos, heightOf, radialDist, TREE_HEIGHT, TREE_RADIUS]
  refine ⟨by linarith, by linarith, radial_cos_sin_le _ _ _ ?_ ?_⟩ <;> linarith

/-- An ornament scattered position lies within the closed ball of radius
`15 √3` (the circumradius of the `[-15, 15]³ ` sampling cube). -/
lemma ornamentScatterPos_dist3_le (r1 r2 r3 : ℝ)
    (h10 : 0 ≤ r1) (h11 : r1 ≤ 1) (h20 : 0 ≤ r2) (h21 : r2 ≤ 1)
    (h30 : 0 ≤ r3) (h31 : r3 ≤ 1) :
    dist3 (ornamentScatterPos r1 r2 r3) ≤ 15 * Real.sqrt 3 := by
  simp only [dist3, ornamentScatterPos]
  have hb : ∀ x : ℝ, 0 ≤ x → x ≤ 1 → ((x - 0.5) * 30) ^ 2 ≤ 225 := by
    intro x hx0 hx1
    nlinarith
  have hsum : ((r1 - 0.5) * 30) ^ 2 + ((r2 - 0.5) * 30) ^ 2 + ((r3 - 0.5) * 30) ^ 2 ≤ 675 := by
    linarith [hb r1 h10 h11, hb r2 h20 h21, hb r3 h30 h31]
  calc Real.sqrt (((r1 - 0.5) * 30) ^ 2 + ((r2 - 0.5) * 30) ^ 2 + ((r3 - 0.5) * 30) ^ 2)
      ≤ Real.sqrt 675 := Real.sqrt_le_sqrt hsum
    _ = 15 * Real.sqrt 3 := by
        rw [show (675:ℝ) = 15 ^ 2 * 3 by norm_num, Real.sqrt_mul (by positivity),
          Real.sqrt_sq (by norm_num)]

/-- C1 (counterexample to the claim as stated): ornament scattered positions
are sampled from the cube `[-15, 15]³`, not from the `[25, 45]` shell used for
foliage; with all `Math.random()` draws equal to `1/2` (a valid drawing) every
ornament scatters to the origin, at distance 0 from it. -/
theorem c1_scattered_shell_cex :
    ¬ (∀ o ∈ generateOrnaments 180 (fun _ => (1/2 : ℝ)),
        25 ≤ dist3 o.scatterPos ∧ dist3 o.scatterPos ≤ 45) := by
  intro h
  have hmem : mkOrnament 180 0 (fun _ => (1/2 : ℝ)) ∈
      generateOrnaments 180 (fun _ => (1/2 : ℝ)) := by
    simp only [generateOrnaments]
    exact List.mem_map.mpr ⟨0, List.mem_range.mpr (by norm_num), rfl⟩
  have h0 := (h _ hmem).1
  have hz : dist3 (mkOrnament 180 0 (fun _ => (1/2 : ℝ))).scatterPos = 0 := by
    simp only [mkOrnament, ornamentScatterPos, dist3]
    norm_num
  rw [hz] at h0
  linarith

/-- C1 (amended): every foliage scattered position lies on the configured
shell — its distance from the origin is in `[25, 45]` — while every ornament
scattered position merely lies in the sampling cube's circumscribed ball of
radius `15 √3` about the origin (no positive lower bound holds for it). -/
theorem c1_scattered_shell_amended (u : ℕ → ℝ) (hu : ∀ n, 0 ≤ u n ∧ u n ≤ 1) :
    (∀ p ∈ (generateFoliageAttributes u).scatterPos,
        25 ≤ dist3 p ∧ dist3 p ≤ 45) ∧
    (∀ o ∈ generateOrnaments 180 u, dist3 o.scatterPos ≤ 15 * Real.sqrt 3) := by
  constructor
  · intro p hp
    simp only [generateFoliageAttributes] at hp
    rw [List.mem_map] at hp
    obtain ⟨i, hi, rfl⟩ := hp
    rw [foliage_scatter_dist3 _ _ _ (hu (6 * i + 1)).1]
    have h2 := hu (6 * i + 1)
    exact ⟨by linarith [h2.1], by linarith [h2.2]⟩
  · intro o ho
    simp only [generateOrnaments] at ho
    rw [List.mem_map] at ho
    obtain ⟨i, hi, rfl⟩ := ho
    simp only [mkOrnament]
    exact ornamentScatterPos_dist3_le _ _ _
      (hu _).1 (hu _).2 (hu _).1 (hu _).2 (hu _).1 (hu _).2

/-- Witness for the amended C1: constant draws `1/2` are a valid random
stream, and the theorem instantiates to it. -/
theorem c1_scattered_shell_amended_witness :
    ((0:ℝ) ≤ 1/2 ∧ (1/2:ℝ) ≤ 1) ∧
    (∀ o ∈ generateOrnaments 180 (fun _ => (1/2 : ℝ)),
        dist3 o.scatterPos ≤ 15 * Real.sqrt 3) :=
  ⟨⟨by norm_num, by norm_num⟩,
   (c1_scattered_shell_amended (fun _ => (1/2 : ℝ))
     (fun _ => ⟨by norm_num, by norm_num⟩)).2⟩

/-- C4 (counterexample to the claim as stated): the ornament ring is placed at
radius `(TREE_RADIUS + 0.2) · heightFactor`; ornament 0 sits at the base with
`heightFactor = 1`, hence at radial distance `5.7`, which exceeds the claimed
bound `5.5 + 0.15` (configured max radius plus the radius-jitter bound). -/
theorem c4_formed_radius_cex :
    ¬ (∀ o ∈ generateOrnaments 180 (fun _ => (0 : ℝ)),
        radialDist o.treePos ≤ 5.5 + 0.15) := by
  intro h
  have hmem : mkOrnament 180 0 (fun _ => (0 : ℝ)) ∈
      generateOrnaments 180 (fun _ => (0 : ℝ)) := by
    simp only [generateOrnaments]
    exact List.mem_map.mpr ⟨0, List.mem_range.mpr (by norm_num), rfl⟩
  have h0 := h _ hmem
  have htp : (mkOrnament 180 0 (fun _ => (0 : ℝ))).treePos = (5.7, -7, 0) := by
    simp only [mkOrnament, ornamentTreePos, TREE_HEIGHT, TREE_RADIUS, Prod.mk.injEq]
    norm_num [Real.cos_zero, Real.sin_zero]
  rw [htp] at h0
  have hr : radialDist (5.7, -7, 0) = 5.7 := by
    simp only [radialDist]
    rw [show ((5.7:ℝ)) ^ 2 + (0:ℝ) ^ 2 = 5.7 ^ 2 by ring, Real.sqrt_sq (by norm_num)]
  rw [hr] at h0
  linarith

/-- C4 (amended): every formed foliage position has height in `[-7, 7]` and
radial distance at most `5.5 + 0.15` (configured radius plus jitter bound);
every formed ornament position has height in `[-7, 7]` and radial distance at
most `5.5 + 0.2` (configured radius plus the ornament ring's outward offset,
which exceeds the foliage jitter bound). -/
theorem c4_formed_bounds_amended (u : ℕ → ℝ) (hu : ∀ n, 0 ≤ u n ∧ u n ≤ 1) :
    (∀ p ∈ (generateFoliageAttributes u).treePos,
        -7 ≤ heightOf p ∧ heightOf p ≤ 7 ∧ radialDist p ≤ 5.5 + 0.15) ∧
    (∀ o ∈ generateOrnaments 180 u,
        -7 ≤ heightOf o.treePos ∧ heightOf o.treePos ≤ 7 ∧
        radialDist o.treePos ≤ 5.5 + 0.2) := by
  constructor
  · intro p hp
    simp only [generateFoliageAttributes] at hp
    rw [List.mem_map] at hp
    obtain ⟨i, hi, rfl⟩ := hp
    rw [List.mem_range] at hi
    exact foliageTreePos_bounds FOLIAGE_COUNT i (u (6 * i)) hi.le (hu _).1 (hu _).2
  · intro o ho
    simp only [generateOrnaments] at ho
    rw [List.mem_map] at ho
    obtain ⟨i, hi, rfl⟩ := ho
    rw [List.mem_range] at hi
    simp only [mkOrnament]
    exact ornamentTreePos_bounds 180 i (u (8 * i)) hi.le

/-- Witness for the amended C4: constant draws `1/2` are a valid random
stream, and the theorem instantiates to it. -/
theorem c4_formed_bounds_amended_witness :
    ((0:ℝ) ≤ 1/2 ∧ (1/2:ℝ) ≤ 1) ∧
    (∀ o ∈ generateOrnaments 180 (fun _ => (1/2 : ℝ)),
        -7 ≤ heightOf o.treePos ∧ heightOf o.treePos ≤ 7 ∧
        radialDist o.treePos ≤ 5.5 + 0.2) :=
  ⟨⟨by norm_num, by norm_num⟩,
   (c4_formed_bounds_amended (fun _ => (1/2 : ℝ))
     (fun _ => ⟨by norm_num, by norm_num⟩)).2⟩

/-- C9: one frame of the scene — the blend driver tick and both render
callbacks — rewrites only the uniforms, the instance matrices, the blend
scalar and the group rotation; the stored foliage attributes (scattered and
formed positions, randoms, sizes) and the stored ornament records (scattered
and formed positions, rotation speed, scale, shape tag, phase) are exactly
those generated at creation, and `generateOrnaments` yields exactly one
record, with one scattered and one formed position, per requested ornament. -/
theorem c9_frame_preserves_generated_data :
    (∀ (isFormed : Bool) (time delta : ℝ) (s : SceneState),
        (sceneFrame isFormed time delta s).foliage = s.foliage ∧
        (sceneFrame isFormed time delta s).ornaments = s.ornaments) ∧
    (∀ (count : ℕ) (u : ℕ → ℝ), (generateOrnaments count u).length = count) := by
  constructor
  · intro isFormed time delta s
    exact ⟨rfl, rfl⟩
  · intro count u
    simp [generateOrnaments]
